import Mathlib

/-!
Verification of the openprd backend core against its specification.

The embedding models the TypeScript sources shallowly:

* JavaScript strings are embedded as `List Char` (`Str`); the UTF-16 details
  are irrelevant to the verified claims, which only concern character
  sequences.
* Byte buffers are embedded as `List Nat`.
* The cryptographic primitives called from `crypto.ts` (PBKDF2, AES-256-GCM)
  live in Node's standard library, not in this repository; they are modelled
  as an ideal authenticated cipher: key derivation is collision-free and the
  authentication tag binds key, salt, IV and ciphertext injectively.  The
  payload layout `salt(32) ‖ iv(16) ‖ tag(16) ‖ ciphertext` and the exact
  slicing offsets of `decryptApiKey` are taken from the source.  The base64
  transport encoding, a bijection applied at the boundary, is omitted.
* Stateful endpoint handlers (`generate`, `listProviderModels`) are embedded
  as pure functions from a request plus an environment (database lookup
  results, HTTP outcomes) to a result together with a chronological trace of
  effects (outbound network calls, database writes).
* Floating-point arithmetic on costs is idealised as exact rational
  arithmetic; the context-window guard `inputTokens > contextWindow * 0.6`
  is embedded as `inputTokens * 5 > contextWindow * 3`, which agrees with
  the IEEE-754 computation for every context window in the registry.
-/

/-- JavaScript strings, embedded as character lists. -/
abbrev Str := List Char

/-- Character list of a Lean string literal. -/
def strL (s : String) : Str := s.data

/-- The character class `\s` of JavaScript regular expressions
(ECMAScript WhiteSpace and LineTerminator code points). -/
def isWSChar (c : Char) : Bool :=
  c.toNat == 9 || c.toNat == 10 || c.toNat == 11 || c.toNat == 12 ||
  c.toNat == 13 || c.toNat == 32 || c.toNat == 160 || c.toNat == 5760 ||
  (8192 ≤ c.toNat && c.toNat ≤ 8202) || c.toNat == 8232 ||
  c.toNat == 8233 || c.toNat == 8239 || c.toNat == 8287 ||
  c.toNat == 12288 || c.toNat == 65279

/-- The character class `\d` of JavaScript regular expressions. -/
def isDigitChar (c : Char) : Bool := 48 ≤ c.toNat && c.toNat ≤ 57

/-- Characters matched by `.` in a JavaScript regular expression without the
`s` flag: everything except the four LineTerminator code points. -/
def isDotChar (c : Char) : Bool :=
  !(c.toNat == 10 || c.toNat == 13 || c.toNat == 8232 || c.toNat == 8233)

/-- `content.split('\n')` of JavaScript: split on every newline, keeping
empty segments (an empty string yields one empty segment). -/
def splitLines : Str → List Str
  | [] => [[]]
  | c :: rest =>
    if c = '\n' then [] :: splitLines rest
    else
      match splitLines rest with
      | [] => [[c]]
      | l :: ls => (c :: l) :: ls

/-- Join lines with single newline separators (the inverse of `splitLines`
on newline-free lines). -/
def interLines : List Str → Str
  | [] => []
  | [l] => l
  | l :: ls => l ++ '\n' :: interLines ls

/-- Each line followed by a newline, concatenated; this is the shape in
which `parseSections` accumulates section content. -/
def joinLines (ls : List Str) : Str :=
  ls.foldr (fun l acc => l ++ '\n' :: acc) []

/-- Erase every whitespace character; two strings are equal "modulo
whitespace" precisely when their images under `normWS` coincide. -/
def normWS (s : Str) : Str := s.filter (fun c => !isWSChar c)

/-- Tail `\s+(.+)$` of the heading regular expressions, applied to the
maximal whitespace run `ws` and the remainder `cs` of the line.  The greedy
`\s+` backtracks one character when `(.+)` would otherwise be empty, so a
line ending in two or more whitespace characters still matches with a
one-character capture. -/
def tailCapture (ws cs : Str) : Option Str :=
  if ws.isEmpty then none
  else if !cs.isEmpty && cs.all isDotChar then some cs
  else if cs.isEmpty then
    match ws.reverse with
    | c2 :: _ :: _ => if isDotChar c2 then some [c2] else none
    | _ => none
  else none

/-- The section-heading test `line.match(/^#\s+\d+\.\s+(.+)$/)` of
`parseSections`; returns the capture group on a match. -/
def headerMatch : Str → Option Str
  | '#' :: rest =>
    let ws1 := rest.takeWhile isWSChar
    let r1 := rest.dropWhile isWSChar
    if ws1.isEmpty then none
    else
      let ds := r1.takeWhile isDigitChar
      let r2 := r1.dropWhile isDigitChar
      if ds.isEmpty then none
      else
        match r2 with
        | '.' :: r3 => tailCapture (r3.takeWhile isWSChar) (r3.dropWhile isWSChar)
        | _ => none
  | _ => none

/-- The title test `content.match(/^#\s+(.+)$/m)` of `extractTitle`,
applied to a single line. -/
def titleLineMatch : Str → Option Str
  | '#' :: rest => tailCapture (rest.takeWhile isWSChar) (rest.dropWhile isWSChar)
  | _ => none

/-- `s.toLowerCase()` (exact on the ASCII range used by the claims). -/
def toLowerStr (s : Str) : Str := s.map Char.toLower

/-- `s.replace(/\s+/g, sep)`: every maximal whitespace run becomes the
single character `sep`.  The `Bool` argument records whether the previous
character was whitespace. -/
def collapseWSAux (sep : Char) : Bool → Str → Str
  | _, [] => []
  | inWS, c :: rest =>
    if isWSChar c then
      if inWS then collapseWSAux sep true rest
      else sep :: collapseWSAux sep true rest
    else c :: collapseWSAux sep false rest

/-- `s.replace(/\s+/g, sep)`. -/
def collapseWS (sep : Char) (s : Str) : Str := collapseWSAux sep false s

/-- `s.trim()`. -/
def trimStr (s : Str) : Str :=
  ((s.dropWhile isWSChar).reverse.dropWhile isWSChar).reverse

/-- Heading text to section type:
`headerMatch[1].toLowerCase().replace(/\s+/g, '_')`. -/
def snakeType (h : Str) : Str := collapseWS '_' (toLowerStr h)

/-- One parsed section: a snake-cased type label and its markdown content. -/
structure RawSection where
  type : Str
  content : Str
deriving DecidableEq

/-- The line loop of `parseSections`: `cur` is the section currently being
accumulated (`null` before the first heading). -/
def parseLoop : List Str → Option RawSection → List RawSection
  | [], none => []
  | [], some s => [s]
  | line :: ls, cur =>
    match headerMatch line with
    | some h =>
      let ns : RawSection := ⟨snakeType h, line ++ ['\n']⟩
      match cur with
      | some s => s :: parseLoop ls (some ns)
      | none => parseLoop ls (some ns)
    | none =>
      match cur with
      | some s => parseLoop ls (some ⟨s.type, s.content ++ line ++ ['\n']⟩)
      | none => parseLoop ls none

/-- `parseSections` of `generate.ts`: split the generated markdown into
lines and group them into sections at numbered top-level headings. -/
def parseSections (content : Str) : List RawSection :=
  parseLoop (splitLines content) none

/-- The contents of a section list, concatenated in stored order. -/
def sectionsConcat (l : List RawSection) : Str :=
  l.foldr (fun s acc => s.content ++ acc) []

/-- `extractTitle` of `generate.ts`: the first line matching
`/^#\s+(.+)$/m`, trimmed, defaulting to a fixed placeholder. -/
def extractTitle (content : Str) : Str :=
  match (splitLines content).findSome? titleLineMatch with
  | some t => trimStr t
  | none => strL "Untitled PRD"

example : headerMatch (strL "# 1. Executive Summary") = some (strL "Executive Summary") := by decide
example : headerMatch (strL "## 1. Executive Summary") = none := by decide
example : headerMatch (strL "# 1 Executive Summary") = none := by decide
example : snakeType (strL "Executive Summary") = strL "executive_summary" := by decide
example : splitLines (strL "a\nb\n") = [strL "a", strL "b", []] := by decide
example :
    parseSections (strL "intro\n# 1. A\nx") =
      [⟨strL "a", strL "# 1. A\nx\n"⟩] := by decide
example : extractTitle (strL "junk\n# My Title \nrest") = strL "My Title" := by decide

/-- Case-insensitive character comparison (the `i` flag). -/
def lcEq (a c : Char) : Bool := a.toLower == c.toLower

/-- Match a literal case-insensitively, returning the remainder. -/
def matchLit : Str → Str → Option Str
  | [], cs => some cs
  | _ :: _, [] => none
  | a :: ls, c :: cs => if lcEq a c then matchLit ls cs else none

/-- Remainders after `\s*`, in greedy order (longest consumption first). -/
def wsStarRems : Str → List Str
  | [] => [[]]
  | c :: rest =>
    if isWSChar c then wsStarRems rest ++ [c :: rest]
    else [c :: rest]

/-- Remainders after `\s+`, in greedy order. -/
def wsPlusRems : Str → List Str
  | [] => []
  | c :: rest => if isWSChar c then wsStarRems rest else []

/-- Remainders after `(?:it|this|the\s+(?:app|application|project|product))?`
in the engine's preference order (alternatives left to right, the optional
group present before absent). -/
def optGroupRems (cs : Str) : List Str :=
  (matchLit (strL "it") cs).toList ++
  (matchLit (strL "this") cs).toList ++
  (match matchLit (strL "the") cs with
   | none => []
   | some r =>
     (wsPlusRems r).flatMap (fun r2 =>
       (matchLit (strL "app") r2).toList ++
       (matchLit (strL "application") r2).toList ++
       (matchLit (strL "project") r2).toList ++
       (matchLit (strL "product") r2).toList)) ++
  [cs]

/-- Remainders after `["']?`, consuming a quote first when possible. -/
def quoteRems : Str → List Str
  | [] => [[]]
  | c :: rest =>
    if c = '"' || c = '\'' then [rest, c :: rest] else [c :: rest]

/-- The capture class `[a-zA-Z0-9\s-_]` of the naming-phrase regex. -/
def isNameClassChar (c : Char) : Bool :=
  (97 ≤ c.toNat && c.toNat ≤ 122) || (65 ≤ c.toNat && c.toNat ≤ 90) ||
  isDigitChar c || isWSChar c || c == '-' || c == '_'

/-- Greedy `([a-zA-Z0-9\s-_]+)`: the maximal nonempty class run.  The final
`["']?` of the pattern always succeeds afterwards, so it never constrains
the capture. -/
def captureRun (cs : Str) : Option Str :=
  let run := cs.takeWhile isNameClassChar
  if run.isEmpty then none else some run

/-- One anchored attempt of the naming-phrase regex
`/(?:name|title|call|called)\s*(?:it|this|the\s+(?:app|application|project|product))?\s*["']?([a-zA-Z0-9\s-_]+)["']?/i`
at the start of `cs`; depth-first search in the engine's backtracking
order, returning the first capture found. -/
def matchAt (cs : Str) : Option Str :=
  [strL "name", strL "title", strL "call", strL "called"].findSome? (fun kw =>
    match matchLit kw cs with
    | none => none
    | some r1 =>
      (wsStarRems r1).findSome? (fun r2 =>
        (optGroupRems r2).findSome? (fun r3 =>
          (wsStarRems r3).findSome? (fun r4 =>
            (quoteRems r4).findSome? captureRun))))

/-- `input.match(regex)` scanning: the leftmost successful attempt wins. -/
def nameMatchAux : Str → Option Str
  | [] => none
  | c :: rest =>
    match matchAt (c :: rest) with
    | some r => some r
    | none => nameMatchAux rest

/-- The naming-phrase test of `generateFilename`; returns capture group 1
of the first match, if any. -/
def nameMatch (input : Str) : Option Str := nameMatchAux input

example : nameMatch (strL "Call it Falcon, a PDF summarizer") = some (strL "Falcon") := by decide
example : nameMatch (strL "just a summarizer without naming words") = none := by decide

/-- Base of the injective byte-list encoding used by the ideal cipher
model; any value above `2 ^ 32` works. -/
def encBase : Nat := 1099511627776

/-- Injective encoding of byte lists (entries below `2 ^ 32`) into `Nat`;
stands in for the collision-free compression inside PBKDF2/GHASH. -/
def encList (l : List Nat) : Nat :=
  l.foldr (fun a b => b * encBase + (a + 1)) 0

/-- Injective encoding of strings into `Nat`. -/
def encStr (s : Str) : Nat := encList (s.map Char.toNat)

/-- One keystream byte of the ideal cipher, derived (like the real AES key)
from the derivation secret, the salt and the IV. -/
def keyByte (secret : Str) (salt iv : List Nat) : Nat :=
  (encStr secret + encList salt + encList iv) % 256

/-- The ideal authentication tag value: binds secret, salt, IV and
ciphertext injectively (real GCM does so up to negligible collision
probability). -/
def tagNat (secret : Str) (salt iv ct : List Nat) : Nat :=
  Nat.pair (encStr secret) (Nat.pair (encList salt) (Nat.pair (encList iv) (encList ct)))

/-- The 16-byte authentication tag block. -/
def tagOf (secret : Str) (salt iv ct : List Nat) : List Nat :=
  tagNat secret salt iv ct :: List.replicate 15 0

/-- `encryptApiKey` of `crypto.ts`: derive a key from `(secret, salt)`,
encrypt, and return `salt ‖ iv ‖ authTag ‖ ciphertext`.  `salt` and `iv`
are the `randomBytes(32)` / `randomBytes(16)` draws, passed explicitly. -/
def encryptApiKey (apiKey secret : Str) (salt iv : List Nat) : List Nat :=
  let ct := apiKey.map (fun c => c.toNat ^^^ keyByte secret salt iv)
  salt ++ iv ++ tagOf secret salt iv ct ++ ct

/-- `decryptApiKey` of `crypto.ts`: slice the payload at offsets 32, 48 and 64,
re-derive the key, verify the authentication tag and decrypt.  `none`
models the exception thrown by `decipher.final` on tag mismatch. -/
def decryptApiKey (payload : List Nat) (secret : Str) : Option Str :=
  let salt := payload.take 32
  let iv := (payload.drop 32).take 16
  let tag := (payload.drop 48).take 16
  let ct := payload.drop 64
  if tag = tagOf secret salt iv ct then
    some (ct.map (fun b => Char.ofNat (b ^^^ keyByte secret salt iv)))
  else none

/-- `getDecryptedApiKey` of `api-keys.ts`, applied to the stored row for
`(user, provider)` (if any) and to the secret freshly drawn by
`generateUserSecret()` at decryption time; the `catch` around
`decryptApiKey` turns a failed decryption into `null`. -/
def getDecryptedApiKey (row : Option (List Nat)) (secret : Str) : Option Str :=
  match row with
  | none => none
  | some payload => decryptApiKey payload secret

example :
    decryptApiKey
      (encryptApiKey (strL "sk-x") (strL "s1") (List.replicate 32 7) (List.replicate 16 3))
      (strL "s1") = some (strL "sk-x") := by decide
example :
    decryptApiKey
      (encryptApiKey (strL "sk-x") (strL "s1") (List.replicate 32 7) (List.replicate 16 3))
      (strL "s2") = none := by decide

/-- `ModelInfo` of `ai-providers.ts` (costs idealised as exact rationals). -/
structure ModelInfo where
  name : Str
  contextWindow : Nat
  inputCostPer1k : Rat
  outputCostPer1k : Rat
deriving DecidableEq

/-- `AuthMethod` of `ai-providers.ts`. -/
inductive AuthMethod where
  | bearer
  | xApiKey
  | googleApiKey
deriving DecidableEq

/-- `responseFormat` of `ProviderModelList`. -/
inductive RespFormat where
  | openaiFmt
  | googleFmt
  | anthropicFmt
  | openrouterFmt
  | deepseekFmt
  | moonshotFmt
deriving DecidableEq

/-- `ProviderModelList` of `ai-providers.ts` (the optional extra headers
only shape the outbound request and are omitted). -/
structure ProviderModelList where
  endpoint : Str
  authMethod : AuthMethod
  responseFormat : RespFormat
deriving DecidableEq

/-- `ProviderInfo` of `ai-providers.ts`. -/
structure ProviderInfo where
  name : Str
  baseUrl : Str
  modelList : Option ProviderModelList
  models : List ModelInfo
deriving DecidableEq

/-- The `openai` registry entry. -/
def openaiInfo : ProviderInfo :=
  { name := strL "OpenAI"
    baseUrl := strL "https://api.openai.com/v1"
    modelList := some ⟨strL "/models", .bearer, .openaiFmt⟩
    models :=
      [ ⟨strL "gpt-4o", 128000, mkRat 5 1000, mkRat 15 1000⟩
      , ⟨strL "gpt-4o-mini", 128000, mkRat 15 100000, mkRat 6 10000⟩
      , ⟨strL "gpt-4-turbo", 128000, mkRat 1 100, mkRat 3 100⟩ ] }

/-- The `anthropic` registry entry. -/
def anthropicInfo : ProviderInfo :=
  { name := strL "Anthropic"
    baseUrl := strL "https://api.anthropic.com/v1"
    modelList := some ⟨strL "/models", .xApiKey, .anthropicFmt⟩
    models :=
      [ ⟨strL "claude-3-5-sonnet-20241022", 200000, mkRat 3 1000, mkRat 15 1000⟩
      , ⟨strL "claude-3-haiku-20240307", 200000, mkRat 25 100000, mkRat 125 100000⟩ ] }

/-- The `google` registry entry. -/
def googleInfo : ProviderInfo :=
  { name := strL "Google"
    baseUrl := strL "https://generativelanguage.googleapis.com/v1beta"
    modelList := some ⟨strL "/models", .googleApiKey, .googleFmt⟩
    models :=
      [ ⟨strL "gemini-1.5-pro-latest", 2000000, mkRat 125 100000, mkRat 5 1000⟩
      , ⟨strL "gemini-1.5-flash-latest", 1000000, mkRat 75 1000000, mkRat 3 10000⟩ ] }

/-- The `openrouter` registry entry (empty static catalog; fully dynamic). -/
def openrouterInfo : ProviderInfo :=
  { name := strL "OpenRouter"
    baseUrl := strL "https://openrouter.ai/api/v1"
    modelList := some ⟨strL "/models", .bearer, .openrouterFmt⟩
    models := [] }

/-- The `deepseek` registry entry. -/
def deepseekInfo : ProviderInfo :=
  { name := strL "DeepSeek"
    baseUrl := strL "https://api.deepseek.com/v1"
    modelList := some ⟨strL "/models", .bearer, .deepseekFmt⟩
    models :=
      [ ⟨strL "deepseek-chat", 128000, mkRat 14 100000, mkRat 28 100000⟩
      , ⟨strL "deepseek-coder", 128000, mkRat 14 100000, mkRat 28 100000⟩ ] }

/-- The `moonshot` registry entry. -/
def moonshotInfo : ProviderInfo :=
  { name := strL "Moonshot.ai"
    baseUrl := strL "https://api.moonshot.ai/v1"
    modelList := some ⟨strL "/models", .bearer, .moonshotFmt⟩
    models :=
      [ ⟨strL "moonshot-v1-8k", 8000, mkRat 1 1000, mkRat 1 1000⟩
      , ⟨strL "moonshot-v1-32k", 32000, mkRat 2 1000, mkRat 2 1000⟩
      , ⟨strL "moonshot-v1-128k", 128000, mkRat 5 1000, mkRat 5 1000⟩ ] }

/-- The `zai` registry entry (no dynamic model-list endpoint). -/
def zaiInfo : ProviderInfo :=
  { name := strL "Z.ai"
    baseUrl := strL "https://api.z.ai/api/paas/v4"
    modelList := none
    models :=
      [ ⟨strL "glm-4.5", 128000, mkRat 6 10000, mkRat 22 10000⟩
      , ⟨strL "glm-4-32b-0414-128k", 128000, mkRat 1 10000, mkRat 1 10000⟩ ] }

/-- `AI_PROVIDERS` of `ai-providers.ts` as an association list in source
order. -/
def AI_PROVIDERS : List (Str × ProviderInfo) :=
  [ (strL "openai", openaiInfo)
  , (strL "anthropic", anthropicInfo)
  , (strL "google", googleInfo)
  , (strL "openrouter", openrouterInfo)
  , (strL "deepseek", deepseekInfo)
  , (strL "moonshot", moonshotInfo)
  , (strL "zai", zaiInfo) ]

/-- `AI_PROVIDERS[provider]` (property lookup; `undefined` becomes `none`). -/
def findProvider (provider : Str) : Option ProviderInfo :=
  (AI_PROVIDERS.find? (fun x => decide (x.1 = provider))).map (·.2)

/-- `getModelInfo` of `ai-providers.ts`. -/
def getModelInfo (provider modelName : Str) : Option ModelInfo :=
  match findProvider provider with
  | none => none
  | some info => info.models.find? (fun m => decide (m.name = modelName))

/-- `estimateTokens` of `ai-providers.ts`: `Math.ceil(text.length / 4)`. -/
def estimateTokens (text : Str) : Nat := (text.length + 3) / 4

/-- `calculateCost` of `ai-providers.ts`: `(tokens / 1000) * costPer1k`. -/
def calculateCost (tokens : Nat) (costPer1k : Rat) : Rat :=
  mkRat (tokens : Int) 1000 * costPer1k

example : getModelInfo (strL "moonshot") (strL "moonshot-v1-8k") =
    some ⟨strL "moonshot-v1-8k", 8000, mkRat 1 1000, mkRat 1 1000⟩ := by decide
example : findProvider (strL "mistral") = none := by decide
example : estimateTokens (strL "abcde") = 2 := by decide

/-- `mode` of a generation request. -/
inductive Mode where
  | quick
  | wizard
deriving DecidableEq

/-- The request body of `POST /api/generate`.  `wizardData` carries its
`JSON.stringify(wizardData, null, 2)` serialisation (the pipeline never
inspects the object otherwise); `none` models an absent/falsy value. -/
structure GenReq where
  userId : Str
  input : Str
  mode : Mode
  wizardData : Option Str
  provider : Str
  model : Str
  outputMode : Str
  apiKey : Option Str
  systemInstructions : Option Str

/-- A `generation_logs` row as inserted by `generate` (only the columns
the pipeline writes). -/
structure LogRow where
  userId : Str
  prdId : Option Nat
  action : Str
  modelProvider : Str
  modelName : Str
  tokensInput : Option Nat
  tokensOutput : Option Nat
  tokensTotal : Option Nat
  costUsd : Option Rat
  errorMessage : Option Str
  durationMs : Nat
deriving DecidableEq

/-- Observable effects of a handler, in chronological order: outbound
network calls and database writes. -/
inductive Effect where
  | upsertUser (userId : Str)
  | netCall (provider purpose : Str)
  | insertPrd (userId title input : Str) (totalTokens : Nat) (costUsd : Rat)
  | insertSection (prdId : Nat) (sectionType : Str) (order : Nat) (content : Str) (tokens : Nat)
  | insertLog (row : LogRow)
deriving DecidableEq

/-- Is the effect an outbound network call? -/
def Effect.isNet : Effect → Bool
  | .netCall _ _ => true
  | _ => false

/-- Is the effect a write to persisted state? -/
def Effect.isDbWrite : Effect → Bool
  | .netCall _ _ => false
  | _ => true

/-- Is the effect a `generation_logs` insert? -/
def Effect.isLog : Effect → Bool
  | .insertLog _ => true
  | _ => false

/-- The `APIError` classifications raised by the handlers. -/
inductive ApiErr where
  | invalidArgument (msg : Str)
  | notFound (msg : Str)
  | unauthenticated (msg : Str)
  | internal (msg : Str)
deriving DecidableEq

/-- One section of the `POST /api/generate` response. -/
structure SecResp where
  id : Nat
  type : Str
  content : Str
  tokens : Nat
deriving DecidableEq

/-- The `POST /api/generate` response body. -/
structure GenResp where
  prdId : Nat
  content : Str
  tokens : Nat
  cost : Rat
  filename : Str
  sections : List SecResp
deriving DecidableEq

deriving instance DecidableEq for Except

/-- Result of a `generate` invocation: the returned value or raised error,
with the chronological effect trace. -/
structure GenOut where
  res : Except ApiErr GenResp
  trace : List Effect
deriving DecidableEq

/-- Environment of one `generate` invocation: results of database lookups
and outcomes of the outbound HTTP calls. -/
structure GenEnv where
  /-- What `getDecryptedApiKey(userId, provider)` returns. -/
  decryptedKey : Option Str
  /-- The active `main` system prompt row, if any. -/
  dbPrompt : Option Str
  /-- Outcome of the completion fetch: content on 2xx, response text
  otherwise. -/
  aiResult : Except Str Str
  /-- Outcome of the codename fetch: content on 2xx, `none` on non-2xx or
  a thrown exception. -/
  codenameOk : Option Str
  /-- Id returned by the `prds` insert (`none` models a null row). -/
  prdId : Option Nat
  /-- Id returned by the i-th `sections` insert. -/
  secId : Nat → Option Nat
  /-- `Date.now() - startTime` (the pipeline only forwards it). -/
  elapsed : Nat

/-- Step 2 of `generate`: the inline key, else the stored decrypted key. -/
def resolveApiKey (req : GenReq) (env : GenEnv) : Option Str :=
  match req.apiKey with
  | some k => some k
  | none => env.decryptedKey

/-- Step 3 of `generate`: a fixed placeholder for the fully dynamic
aggregator, otherwise the registry lookup. -/
def resolveModelInfo (req : GenReq) : Option ModelInfo :=
  if req.provider = strL "openrouter" then
    some ⟨req.model, 128000, mkRat 1 1000, mkRat 1 1000⟩
  else getModelInfo req.provider req.model

/-- Step 4 of `generate`: caller instructions take precedence over the
stored `main` prompt. -/
def resolvePrompt (req : GenReq) (env : GenEnv) : Option Str :=
  match req.systemInstructions with
  | some s => some s
  | none => env.dbPrompt

/-- `formatWizardData` of `generate.ts` (`w` is the serialised wizard
data). -/
def formatWizardData (w input : Str) : Str :=
  input ++ strL "\n\nAdditional Context from Wizard:\n" ++ w

/-- Step 5 of `generate`: append wizard context in wizard mode. -/
def finalInputOf (req : GenReq) : Str :=
  match req.mode, req.wizardData with
  | .wizard, some w => formatWizardData w req.input
  | _, _ => req.input

/-- Wrap a non-2xx response text in the provider-specific thrown message. -/
def wrapAI (head : Str) : Except Str Str → Except Str Str
  | .ok c => .ok c
  | .error e => .error (head ++ e)

/-- `callAI` of `generate.ts`: one completion fetch for the three
implemented providers, a plain thrown error (no fetch) otherwise. -/
def callAI (provider modelName : Str) (env : GenEnv) : Except Str Str × List Effect :=
  if provider = strL "openai" then
    (wrapAI (strL "OpenAI API error: ") env.aiResult, [.netCall provider (strL "completion")])
  else if provider = strL "deepseek" then
    (wrapAI (strL "DeepSeek API error: ") env.aiResult, [.netCall provider (strL "completion")])
  else if provider = strL "openrouter" then
    (wrapAI (strL "OpenRouter API error: ") env.aiResult, [.netCall provider (strL "completion")])
  else (.error (strL "Provider " ++ provider ++ strL " not implemented"), [])

/-- `codename.trim().toLowerCase().replace(/[^a-z0-9]/g, '')`. -/
def cleanCodename (s : Str) : Str :=
  (toLowerStr (trimStr s)).filter (fun c =>
    (97 ≤ c.toNat && c.toNat ≤ 122) || isDigitChar c)

/-- The title-based fallback slug of `generateFilename`. -/
def titleSlug (title : Str) : Str :=
  (collapseWS '-' ((toLowerStr title).filter (fun c =>
    (97 ≤ c.toNat && c.toNat ≤ 122) || isDigitChar c || isWSChar c))).take 30

/-- `generateFilename` of `generate.ts`: naming-phrase extraction first;
otherwise one codename fetch, falling back to a slug of the title. -/
def generateFilename (title input provider modelName : Str) (env : GenEnv) :
    Str × List Effect :=
  match nameMatch input with
  | some captured =>
    (collapseWS '-' (toLowerStr (trimStr captured)) ++ strL "-prd.md", [])
  | none =>
    let eff := [Effect.netCall provider (strL "codename")]
    match env.codenameOk with
    | some content => (cleanCodename content ++ strL "-prd.md", eff)
    | none =>
      let slug := titleSlug title
      ((if slug.isEmpty then strL "untitled" else slug) ++ strL "-prd.md", eff)

/-- The failure `generation_logs` row written by the `catch` block. -/
def failLog (req : GenReq) (msg : Str) (dur : Nat) : LogRow :=
  { userId := req.userId, prdId := none, action := strL "generate"
    modelProvider := req.provider, modelName := req.model
    tokensInput := none, tokensOutput := none, tokensTotal := none
    costUsd := none, errorMessage := some msg, durationMs := dur }

/-- The success `generation_logs` row. -/
def successLog (req : GenReq) (prdId inTok outTok totTok : Nat) (cost : Rat)
    (dur : Nat) : LogRow :=
  { userId := req.userId, prdId := some prdId, action := strL "generate"
    modelProvider := req.provider, modelName := req.model
    tokensInput := some inTok, tokensOutput := some outTok
    tokensTotal := some totTok, costUsd := some cost
    errorMessage := none, durationMs := dur }

/-- The `try` block of `generate` (steps 7-11) together with the `catch`
that logs a failure row before re-raising. -/
def genTry (req : GenReq) (env : GenEnv) (modelInfo : ModelInfo)
    (finalInput : Str) (inputTokens : Nat) (tr0 : List Effect) : GenOut :=
  let ai := callAI req.provider req.model env
  let tr1 := tr0 ++ ai.2
  match ai.1 with
  | .error msg =>
    ⟨.error (.internal (strL "Generation failed: " ++ msg)),
      tr1 ++ [.insertLog (failLog req msg env.elapsed)]⟩
  | .ok content =>
    let outputTokens := estimateTokens content
    let totalTokens := inputTokens + outputTokens
    let totalCost := calculateCost inputTokens modelInfo.inputCostPer1k +
      calculateCost outputTokens modelInfo.outputCostPer1k
    let title := extractTitle content
    let fn := generateFilename title req.input req.provider req.model env
    let tr3 := tr1 ++ fn.2 ++ [.insertPrd req.userId title req.input totalTokens totalCost]
    match env.prdId with
    | none =>
      ⟨.error (.internal (strL "Failed to save PRD")),
        tr3 ++ [.insertLog (failLog req (strL "Failed to save PRD") env.elapsed)]⟩
    | some prdId =>
      let sections := parseSections content
      let secEffs := sections.enum.map (fun p =>
        Effect.insertSection prdId p.2.type (p.1 + 1) p.2.content (estimateTokens p.2.content))
      let secResults := sections.enum.filterMap (fun p =>
        (env.secId p.1).map (fun sid =>
          SecResp.mk sid p.2.type p.2.content (estimateTokens p.2.content)))
      ⟨.ok ⟨prdId, content, totalTokens, totalCost, fn.1, secResults⟩,
        tr3 ++ secEffs ++
          [.insertLog (successLog req prdId inputTokens (estimateTokens content)
            totalTokens totalCost env.elapsed)]⟩

/-- `generate` of `generate.ts` (`POST /api/generate`): user upsert, key
resolution, validation, context-window guard, then the `try` block. -/
def generate (req : GenReq) (env : GenEnv) : GenOut :=
  let tr0 : List Effect := [.upsertUser req.userId]
  match resolveApiKey req env with
  | none =>
    ⟨.error (.notFound (strL "No API key found for this provider. Please provide one or save it for future use.")), tr0⟩
  | some _ =>
    match findProvider req.provider with
    | none => ⟨.error (.invalidArgument (strL "Unsupported provider: " ++ req.provider)), tr0⟩
    | some _ =>
      match resolveModelInfo req with
      | none => ⟨.error (.invalidArgument (strL "Unsupported model: " ++ req.model)), tr0⟩
      | some modelInfo =>
        match resolvePrompt req env with
        | none => ⟨.error (.internal (strL "System prompt not found")), tr0⟩
        | some sysPrompt =>
          let finalInput := finalInputOf req
          let inputTokens := estimateTokens (sysPrompt ++ finalInput)
          if req.provider ≠ strL "openrouter" ∧ inputTokens * 5 > modelInfo.contextWindow * 3 then
            ⟨.error (.invalidArgument (strL "Input too long for selected model context window")), tr0⟩
          else genTry req env modelInfo finalInput inputTokens tr0

/-- One entry of the aggregator's `data` array (`parseFloat` of a pricing
field is `none` when the field is absent or unparseable). -/
structure ORModel where
  id : Str
  context_length : Option Nat
  pricingPrompt : Option Rat
  pricingCompletion : Option Rat
deriving DecidableEq

/-- Environment of one `listProviderModels` invocation. -/
structure ListEnv where
  /-- Whether the single outbound fetch returned 2xx. -/
  fetchOk : Bool
  /-- `error.error?.message` of a non-2xx body, when parseable. -/
  errMsg : Option Str
  /-- The aggregator-shaped payload (`data.data`). -/
  orModels : List ORModel
  /-- The flat id list of the other response shapes. -/
  modelIds : List Str

/-- Exact scaling by 1000, in a form the kernel evaluates; equal to
`p * 1000` (see `times1000_eq`). -/
def times1000 (p : Rat) : Rat := mkRat (p.num * 1000) p.den

/-- The aggregator mapping of `listProviderModels` (lines 51-58):
per-token prices scaled by 1000 (`|| 0` on failure), context length
defaulting via `|| 0`. -/
def orToModelInfo (m : ORModel) : ModelInfo :=
  { name := m.id
    contextWindow := m.context_length.getD 0
    inputCostPer1k := (m.pricingPrompt.map times1000).getD 0
    outputCostPer1k := (m.pricingCompletion.map times1000).getD 0 }

/-- Body of `listProviderModels` after the registry lookup succeeded. -/
def listCore (info : ProviderInfo) (env : ListEnv) :
    Except ApiErr (List ModelInfo) × List Effect :=
  match info.modelList with
  | some ml =>
    let eff := [Effect.netCall info.name (strL "models")]
    if env.fetchOk = false then
      (.error (.unauthenticated
        (env.errMsg.getD (strL "Invalid " ++ info.name ++ strL " API key"))), eff)
    else
      match ml.responseFormat with
      | .openrouterFmt => (.ok (env.orModels.map orToModelInfo), eff)
      | _ =>
        let userModels := info.models.filter (fun m => env.modelIds.contains m.name)
        if userModels.isEmpty then
          (.error (.notFound (strL "No supported " ++ info.name ++
            strL " models found for your API key.")), eff)
        else (.ok userModels, eff)
  | none =>
    if info.models.isEmpty then (.ok [], [])
    else
      let eff := [Effect.netCall info.name (strL "validation")]
      if env.fetchOk then (.ok info.models, eff)
      else
        (.error (.unauthenticated
          (env.errMsg.getD (strL "Invalid " ++ info.name ++ strL " API key"))), eff)

/-- `listProviderModels` of `list-provider-models.ts`
(`POST /api/provider-models`). -/
def listProviderModels (provider : Str) (env : ListEnv) :
    Except ApiErr (List ModelInfo) × List Effect :=
  match findProvider provider with
  | none => (.error (.invalidArgument (strL "Unsupported provider: " ++ provider)), [])
  | some info => listCore info env

example :
    (listProviderModels (strL "zai")
      { fetchOk := true, errMsg := none, orModels := [], modelIds := [] }).1 =
      .ok zaiInfo.models := by decide
example :
    (listProviderModels (strL "openrouter")
      { fetchOk := true, errMsg := none
        orModels := [⟨strL "m", none, some (mkRat 1 1000000), none⟩], modelIds := [] }).1 =
      .ok [⟨strL "m", 0, mkRat 1 1000, 0⟩] := by decide

theorem sectionsConcat_nil : sectionsConcat [] = [] := rfl

theorem sectionsConcat_cons (s : RawSection) (l : List RawSection) :
    sectionsConcat (s :: l) = s.content ++ sectionsConcat l := rfl

theorem joinLines_nil : joinLines [] = [] := rfl

theorem joinLines_cons (l : Str) (ls : List Str) :
    joinLines (l :: ls) = l ++ '\n' :: joinLines ls := rfl

theorem joinLines_append (a b : List Str) :
    joinLines (a ++ b) = joinLines a ++ joinLines b := by
  induction a with
  | nil => simp [joinLines_nil]
  | cons l a ih => simp [joinLines_cons, ih]

theorem joinLines_eq_interLines (ls : List Str) (h : ls ≠ []) :
    joinLines ls = interLines ls ++ ['\n'] := by
  induction ls with
  | nil => exact absurd rfl h
  | cons l ls ih =>
    cases ls with
    | nil => simp [joinLines_cons, joinLines_nil, interLines]
    | cons l2 ls2 => simp [joinLines_cons, interLines, ih]

theorem sectionsConcat_parseLoop_some (ls : List Str) :
    ∀ s, sectionsConcat (parseLoop ls (some s)) = s.content ++ joinLines ls := by
  induction ls with
  | nil => intro s; simp [parseLoop, sectionsConcat_cons, sectionsConcat_nil, joinLines_nil]
  | cons line ls ih =>
    intro s
    cases h : headerMatch line with
    | some hd =>
      simp [parseLoop, h, sectionsConcat_cons, ih, joinLines_cons]
    | none =>
      simp [parseLoop, h, ih, joinLines_cons]

theorem sectionsConcat_parseLoop_none (ls : List Str) :
    sectionsConcat (parseLoop ls none) =
      joinLines (ls.dropWhile (fun l => (headerMatch l).isNone)) := by
  induction ls with
  | nil => simp [parseLoop, sectionsConcat_nil, joinLines_nil]
  | cons line ls ih =>
    cases h : headerMatch line with
    | some hd =>
      simp [parseLoop, h, sectionsConcat_parseLoop_some, joinLines_cons]
    | none =>
      simp [parseLoop, h, ih]

/-- C2 counterexample: a generated markdown string with a line of text
before the first numbered heading.  `parseSections` discards that line, so
the concatenated sections do not reconstruct the full markdown even modulo
whitespace. -/
theorem c2_counterexample :
    normWS (sectionsConcat (parseSections (strL "intro\n# 1. A\nx"))) ≠
      normWS (strL "intro\n# 1. A\nx") := by decide

/-- C2 (amended): for every generated markdown string, the sections
produced by `parseSections`, concatenated in stored order, reconstruct the
markdown from its first numbered-heading line onward (each line followed
by a newline); lines before the first heading are discarded, so the
concatenation equals the full markdown modulo whitespace only when nothing
but whitespace precedes the first heading. -/
theorem c2_sections_reconstruct_suffix (content : Str) :
    sectionsConcat (parseSections content) =
      joinLines ((splitLines content).dropWhile (fun l => (headerMatch l).isNone)) :=
  sectionsConcat_parseLoop_none (splitLines content)

theorem splitLines_no_newline (l : Str) (h : ('\n' : Char) ∉ l) :
    splitLines l = [l] := by
  induction l with
  | nil => rfl
  | cons c l ih =>
    have hc : c ≠ '\n' := fun hc => h (hc ▸ List.mem_cons_self c l)
    have hl : ('\n' : Char) ∉ l := fun hm => h (List.mem_cons_of_mem c hm)
    simp [splitLines, hc, ih hl]

theorem splitLines_append_newline (l r : Str) (h : ('\n' : Char) ∉ l) :
    splitLines (l ++ '\n' :: r) = l :: splitLines r := by
  induction l with
  | nil => simp [splitLines]
  | cons c l ih =>
    have hc : c ≠ '\n' := fun hc => h (hc ▸ List.mem_cons_self c l)
    have hl : ('\n' : Char) ∉ l := fun hm => h (List.mem_cons_of_mem c hm)
    simp [splitLines, hc, ih hl]

theorem splitLines_interLines (ls : List Str) (hne : ls ≠ [])
    (h : ∀ l ∈ ls, ('\n' : Char) ∉ l) : splitLines (interLines ls) = ls := by
  induction ls with
  | nil => exact absurd rfl hne
  | cons l ls ih =>
    cases ls with
    | nil => exact splitLines_no_newline l (h l (List.mem_cons_self l []))
    | cons l2 ls2 =>
      have h1 : ('\n' : Char) ∉ l := h l (List.mem_cons_self l _)
      have h2 : ∀ x ∈ l2 :: ls2, ('\n' : Char) ∉ x :=
        fun x hx => h x (List.mem_cons_of_mem l hx)
      calc splitLines (interLines (l :: l2 :: ls2))
          = splitLines (l ++ '\n' :: interLines (l2 :: ls2)) := by rfl
        _ = l :: splitLines (interLines (l2 :: ls2)) := splitLines_append_newline _ _ h1
        _ = l :: l2 :: ls2 := by rw [ih (by simp) h2]

theorem parseLoop_skip_nonheaders (pre rest : List Str)
    (h : ∀ l ∈ pre, headerMatch l = none) :
    parseLoop (pre ++ rest) none = parseLoop rest none := by
  induction pre with
  | nil => rfl
  | cons line pre ih =>
    have h1 : headerMatch line = none := h line (List.mem_cons_self line pre)
    have h2 : ∀ l ∈ pre, headerMatch l = none :=
      fun l hl => h l (List.mem_cons_of_mem line hl)
    cases rest with
    | nil =>
      cases pre with
      | nil => simp [parseLoop, h1]
      | cons p ps => simpa [parseLoop, h1] using ih h2
    | cons r rs => simpa [parseLoop, h1] using ih h2

theorem parseLoop_extend_body (b : List Str)
    (h : ∀ l ∈ b, headerMatch l = none) :
    ∀ (rest : List Str) (s : RawSection),
      parseLoop (b ++ rest) (some s) =
        parseLoop rest (some ⟨s.type, s.content ++ joinLines b⟩) := by
  induction b with
  | nil => intro rest s; simp [joinLines_nil]
  | cons line b ih =>
    intro rest s
    have h1 : headerMatch line = none := h line (List.mem_cons_self line b)
    have h2 : ∀ l ∈ b, headerMatch l = none :=
      fun l hl => h l (List.mem_cons_of_mem line hl)
    have step : parseLoop ((line :: b) ++ rest) (some s) =
        parseLoop (b ++ rest) (some ⟨s.type, s.content ++ line ++ ['\n']⟩) := by
      simp [parseLoop, h1]
    rw [step, ih h2]
    simp [joinLines_cons]

/-- C3: a document body consisting of the heading `# 1. Executive Summary`,
body text, the heading `# 2. Problem Statement` and body text (possibly
after a non-heading preamble) splits into exactly two sections, typed
`executive_summary` and `problem_statement` in that order, whose
concatenated content is the body from the first heading onward followed by
one trailing newline (so it reproduces that suffix modulo whitespace). -/
theorem c3_two_heading_split (pre b1 b2 : List Str)
    (hpre : ∀ l ∈ pre, headerMatch l = none)
    (hb1 : ∀ l ∈ b1, headerMatch l = none)
    (hb2 : ∀ l ∈ b2, headerMatch l = none)
    (hn : ∀ l ∈ pre ++ b1 ++ b2, ('\n' : Char) ∉ l)
    (hne1 : b1 ≠ []) (hne2 : b2 ≠ []) :
    (parseSections (interLines (pre ++ strL "# 1. Executive Summary" ::
        (b1 ++ strL "# 2. Problem Statement" :: b2)))).length = 2 ∧
    (parseSections (interLines (pre ++ strL "# 1. Executive Summary" ::
        (b1 ++ strL "# 2. Problem Statement" :: b2)))).map RawSection.type =
      [strL "executive_summary", strL "problem_statement"] ∧
    sectionsConcat (parseSections (interLines (pre ++ strL "# 1. Executive Summary" ::
        (b1 ++ strL "# 2. Problem Statement" :: b2)))) =
      interLines (strL "# 1. Executive Summary" ::
        (b1 ++ strL "# 2. Problem Statement" :: b2)) ++ ['\n'] := by
  have hh1 : headerMatch (strL "# 1. Executive Summary") =
      some (strL "Executive Summary") := by decide
  have hh2 : headerMatch (strL "# 2. Problem Statement") =
      some (strL "Problem Statement") := by decide
  have hn1 : ('\n' : Char) ∉ strL "# 1. Executive Summary" := by decide
  have hn2 : ('\n' : Char) ∉ strL "# 2. Problem Statement" := by decide
  have hlines : ∀ l ∈ pre ++ strL "# 1. Executive Summary" ::
      (b1 ++ strL "# 2. Problem Statement" :: b2), ('\n' : Char) ∉ l := by
    intro l hl
    rcases List.mem_append.1 hl with hl | hl
    · exact hn l (by simp [hl])
    · rcases List.mem_cons.1 hl with rfl | hl
      · exact hn1
      · rcases List.mem_append.1 hl with hl | hl
        · exact hn l (by simp [hl])
        · rcases List.mem_cons.1 hl with rfl | hl
          · exact hn2
          · exact hn l (by simp [hl])
  have hsplit : splitLines (interLines (pre ++ strL "# 1. Executive Summary" ::
      (b1 ++ strL "# 2. Problem Statement" :: b2))) =
      pre ++ strL "# 1. Executive Summary" :: (b1 ++ strL "# 2. Problem Statement" :: b2) :=
    splitLines_interLines _ (by simp) hlines
  have hparse : parseSections (interLines (pre ++ strL "# 1. Executive Summary" ::
      (b1 ++ strL "# 2. Problem Statement" :: b2))) =
      [⟨strL "executive_summary",
         (strL "# 1. Executive Summary" ++ ['\n']) ++ joinLines b1⟩,
       ⟨strL "problem_statement",
         (strL "# 2. Problem Statement" ++ ['\n']) ++ joinLines b2⟩] := by
    rw [parseSections, hsplit, parseLoop_skip_nonheaders pre _ hpre]
    have st1 : parseLoop (strL "# 1. Executive Summary" ::
        (b1 ++ strL "# 2. Problem Statement" :: b2)) none =
        parseLoop (b1 ++ strL "# 2. Problem Statement" :: b2)
          (some ⟨strL "executive_summary", strL "# 1. Executive Summary" ++ ['\n']⟩) := by
      have : snakeType (strL "Executive Summary") = strL "executive_summary" := by decide
      simp [parseLoop, hh1, this]
    rw [st1, parseLoop_extend_body b1 hb1]
    have st2 : parseLoop (strL "# 2. Problem Statement" :: b2)
        (some ⟨strL "executive_summary",
          (strL "# 1. Executive Summary" ++ ['\n']) ++ joinLines b1⟩) =
        ⟨strL "executive_summary",
          (strL "# 1. Executive Summary" ++ ['\n']) ++ joinLines b1⟩ ::
        parseLoop b2 (some ⟨strL "problem_statement",
          strL "# 2. Problem Statement" ++ ['\n']⟩) := by
      have : snakeType (strL "Problem Statement") = strL "problem_statement" := by decide
      simp [parseLoop, hh2, this]
    rw [st2]
    have st3 := parseLoop_extend_body b2 hb2 [] ⟨strL "problem_statement",
      strL "# 2. Problem Statement" ++ ['\n']⟩
    simp only [List.append_nil] at st3
    rw [st3]
    rfl
  refine ⟨by rw [hparse]; rfl, by rw [hparse]; rfl, ?_⟩
  rw [hparse]
  have hjoin : joinLines (strL "# 1. Executive Summary" ::
      (b1 ++ strL "# 2. Problem Statement" :: b2)) =
      interLines (strL "# 1. Executive Summary" ::
        (b1 ++ strL "# 2. Problem Statement" :: b2)) ++ ['\n'] :=
    joinLines_eq_interLines _ (by simp)
  rw [← hjoin]
  simp [sectionsConcat_cons, sectionsConcat_nil, joinLines_cons, joinLines_append]

/-- C3 witness: concrete instantiation with one line of body text under
each heading. -/
theorem c3_two_heading_split_witness :
    (∀ l ∈ ([] : List Str), headerMatch l = none) ∧
    (∀ l ∈ [strL "text one"], headerMatch l = none) ∧
    (∀ l ∈ [strL "text two"], headerMatch l = none) ∧
    (∀ l ∈ ([] : List Str) ++ [strL "text one"] ++ [strL "text two"], ('\n' : Char) ∉ l) ∧
    ((parseSections (interLines (([] : List Str) ++ strL "# 1. Executive Summary" ::
        ([strL "text one"] ++ strL "# 2. Problem Statement" :: [strL "text two"])))).length = 2 ∧
      (parseSections (interLines (([] : List Str) ++ strL "# 1. Executive Summary" ::
        ([strL "text one"] ++ strL "# 2. Problem Statement" :: [strL "text two"])))).map RawSection.type =
        [strL "executive_summary", strL "problem_statement"] ∧
      sectionsConcat (parseSections (interLines (([] : List Str) ++ strL "# 1. Executive Summary" ::
        ([strL "text one"] ++ strL "# 2. Problem Statement" :: [strL "text two"])))) =
        interLines (strL "# 1. Executive Summary" ::
          ([strL "text one"] ++ strL "# 2. Problem Statement" :: [strL "text two"])) ++ ['\n']) :=
  ⟨by decide, by decide, by decide, by decide,
    c3_two_heading_split [] [strL "text one"] [strL "text two"]
      (by decide) (by decide) (by decide) (by decide) (by decide) (by decide)⟩

/-- C10: for the input text "Call it Falcon, a PDF summarizer",
`generateFilename` matches the naming-phrase regex (capturing "Falcon"),
slugifies it, and returns "falcon-prd.md" with no outbound call — in
particular no fallback codename request — whatever the title, provider,
model and environment are. -/
theorem c10_falcon_filename (title provider modelName : Str) (env : GenEnv) :
    generateFilename title (strL "Call it Falcon, a PDF summarizer")
      provider modelName env = (strL "falcon-prd.md", []) := by
  have h : nameMatch (strL "Call it Falcon, a PDF summarizer") =
      some (strL "Falcon") := by decide
  have hs : collapseWS '-' (toLowerStr (trimStr (strL "Falcon"))) ++ strL "-prd.md" =
      strL "falcon-prd.md" := by decide
  simp [generateFilename, h, hs]

theorem encList_inj {l1 l2 : List Nat}
    (h1 : ∀ a ∈ l1, a < 4294967296) (h2 : ∀ a ∈ l2, a < 4294967296)
    (he : encList l1 = encList l2) : l1 = l2 := by
  induction l1 generalizing l2 with
  | nil =>
    cases l2 with
    | nil => rfl
    | cons b l2 =>
      exfalso
      simp only [encList, List.foldr_nil, List.foldr_cons] at he
      omega
  | cons a l1 ih =>
    cases l2 with
    | nil =>
      exfalso
      simp only [encList, List.foldr_nil, List.foldr_cons] at he
      omega
    | cons b l2 =>
      have ha : a < 4294967296 := h1 a (List.mem_cons_self a l1)
      have hb : b < 4294967296 := h2 b (List.mem_cons_self b l2)
      simp only [encList, List.foldr_cons] at he
      have hB : encBase = 1099511627776 := rfl
      rw [hB] at he
      have hab : a = b ∧
          (List.foldr (fun a b => b * encBase + (a + 1)) 0 l1) =
          (List.foldr (fun a b => b * encBase + (a + 1)) 0 l2) := by
        constructor
        · omega
        · rw [hB]; omega
      obtain ⟨rfl, htail⟩ := hab
      have := ih (fun x hx => h1 x (List.mem_cons_of_mem a hx))
        (fun x hx => h2 x (List.mem_cons_of_mem a hx)) htail
      rw [this]

theorem char_toNat_lt (c : Char) : c.toNat < 4294967296 := c.val.toNat_lt_size

theorem encStr_inj {s1 s2 : Str} (he : encStr s1 = encStr s2) : s1 = s2 := by
  have hm : s1.map Char.toNat = s2.map Char.toNat :=
    encList_inj (fun a ha => by
        obtain ⟨c, _, rfl⟩ := List.mem_map.1 ha; exact char_toNat_lt c)
      (fun a ha => by
        obtain ⟨c, _, rfl⟩ := List.mem_map.1 ha; exact char_toNat_lt c) he
  have hinj : Function.Injective Char.toNat := by
    intro a b h
    have := congrArg Char.ofNat h
    rwa [Char.ofNat_toNat, Char.ofNat_toNat] at this
  exact (List.map_injective_iff.2 hinj) hm

theorem tagNat_secret_inj {s1 s2 : Str} {salt iv ct1 ct2 : List Nat}
    (h : tagNat s1 salt iv ct1 = tagNat s2 salt iv ct2) : s1 = s2 := by
  have := (Nat.pair_eq_pair.1 h).1
  exact encStr_inj this

theorem tagNat_ct_inj {s : Str} {salt iv ct1 ct2 : List Nat}
    (h1 : ∀ a ∈ ct1, a < 4294967296) (h2 : ∀ a ∈ ct2, a < 4294967296)
    (h : tagNat s salt iv ct1 = tagNat s salt iv ct2) : ct1 = ct2 := by
  have h' := (Nat.pair_eq_pair.1 (Nat.pair_eq_pair.1 (Nat.pair_eq_pair.1 h).2).2).2
  exact encList_inj h1 h2 h'

theorem keyByte_lt (secret : Str) (salt iv : List Nat) :
    keyByte secret salt iv < 4294967296 := by
  have : keyByte secret salt iv < 256 := Nat.mod_lt _ (by omega)
  omega

theorem ctByte_lt (c : Char) (secret : Str) (salt iv : List Nat) :
    c.toNat ^^^ keyByte secret salt iv < 4294967296 := by
  have h1 : c.toNat < 2 ^ 32 := char_toNat_lt c
  have h2 : keyByte secret salt iv < 2 ^ 32 := keyByte_lt secret salt iv
  exact Nat.xor_lt_two_pow h1 h2

theorem payload_slices (apiKey secret : Str) (salt iv : List Nat)
    (hsalt : salt.length = 32) (hiv : iv.length = 16) :
    (encryptApiKey apiKey secret salt iv).take 32 = salt ∧
    ((encryptApiKey apiKey secret salt iv).drop 32).take 16 = iv ∧
    ((encryptApiKey apiKey secret salt iv).drop 48).take 16 =
      tagOf secret salt iv (apiKey.map (fun c => c.toNat ^^^ keyByte secret salt iv)) ∧
    (encryptApiKey apiKey secret salt iv).drop 64 =
      apiKey.map (fun c => c.toNat ^^^ keyByte secret salt iv) := by
  have htag : (tagOf secret salt iv
      (apiKey.map (fun c => c.toNat ^^^ keyByte secret salt iv))).length = 16 := by
    simp [tagOf]
  unfold encryptApiKey
  refine ⟨?_, ?_, ?_, ?_⟩
  · rw [List.append_assoc, List.append_assoc, ← hsalt, List.take_left]
  · rw [List.append_assoc, List.append_assoc, ← hsalt, List.drop_left, ← hiv,
      List.take_left]
  · have h48 : (salt ++ iv ++ tagOf secret salt iv
        (apiKey.map (fun c => c.toNat ^^^ keyByte secret salt iv))).length = 64 := by
      simp [hsalt, hiv, htag]
    rw [show (48 : Nat) = (salt ++ iv).length by simp [hsalt, hiv]]
    rw [List.append_assoc (salt ++ iv), List.drop_left, ← htag, List.take_left]
  · rw [show (64 : Nat) = (salt ++ iv ++ tagOf secret salt iv
      (apiKey.map (fun c => c.toNat ^^^ keyByte secret salt iv))).length
      by simp [hsalt, hiv, htag]]
    rw [List.drop_left]

/-- C6: for every plaintext string (empty and long included), every
derivation secret and every salt/IV draw of the prescribed lengths,
`decryptApiKey` is a left inverse of `encryptApiKey` under the same
secret. -/
theorem c6_encrypt_decrypt_roundtrip (k s : Str) (salt iv : List Nat)
    (hsalt : salt.length = 32) (hiv : iv.length = 16) :
    decryptApiKey (encryptApiKey k s salt iv) s = some k := by
  obtain ⟨h1, h2, h3, h4⟩ := payload_slices k s salt iv hsalt hiv
  unfold decryptApiKey
  simp only [h1, h2, h3, h4]
  rw [if_pos trivial]
  have hmap : (k.map (fun c => c.toNat ^^^ keyByte s salt iv)).map
      (fun b => Char.ofNat (b ^^^ keyByte s salt iv)) = k := by
    rw [List.map_map]
    have hid : ((fun b => Char.ofNat (b ^^^ keyByte s salt iv)) ∘
        (fun c => c.toNat ^^^ keyByte s salt iv)) = id := by
      funext c
      simp only [Function.comp_apply, id_eq]
      rw [Nat.xor_assoc, Nat.xor_self, Nat.xor_zero, Char.ofNat_toNat]
    rw [hid, List.map_id]
  rw [hmap]

/-- C6 witness: round trip at a concrete key, secret, salt and IV. -/
theorem c6_encrypt_decrypt_roundtrip_witness :
    (List.replicate 32 (7 : Nat)).length = 32 ∧
    (List.replicate 16 (3 : Nat)).length = 16 ∧
    decryptApiKey
      (encryptApiKey (strL "sk-abcdEFGH1234") (strL "secret-one")
        (List.replicate 32 7) (List.replicate 16 3)) (strL "secret-one") =
      some (strL "sk-abcdEFGH1234") :=
  ⟨by decide, by decide,
    c6_encrypt_decrypt_roundtrip (strL "sk-abcdEFGH1234") (strL "secret-one")
      (List.replicate 32 7) (List.replicate 16 3) (by decide) (by decide)⟩

/-- C1: a key stored by `saveApiKey` is encrypted under one freshly drawn
secret, while `getDecryptedApiKey` re-derives its key from another,
independently drawn secret; whenever the two draws differ, the tag check
fails and `getDecryptedApiKey` returns `null` instead of the stored key. -/
theorem c1_fresh_secret_never_recovers (k s1 s2 : Str) (salt iv : List Nat)
    (hsalt : salt.length = 32) (hiv : iv.length = 16) (hne : s1 ≠ s2) :
    getDecryptedApiKey (some (encryptApiKey k s1 salt iv)) s2 = none := by
  obtain ⟨h1, h2, h3, h4⟩ := payload_slices k s1 salt iv hsalt hiv
  unfold getDecryptedApiKey decryptApiKey
  simp only [h1, h2, h3, h4]
  rw [if_neg]
  intro heq
  have hhead : tagNat s1 salt iv (k.map (fun c => c.toNat ^^^ keyByte s1 salt iv)) =
      tagNat s2 salt iv (k.map (fun c => c.toNat ^^^ keyByte s1 salt iv)) := by
    have := congrArg (fun l => l.headD 0) heq
    simpa [tagOf] using this
  exact hne (tagNat_secret_inj hhead)

/-- C1 witness: a concrete store-then-fetch with two distinct fresh
secrets. -/
theorem c1_fresh_secret_never_recovers_witness :
    (List.replicate 32 (7 : Nat)).length = 32 ∧
    (List.replicate 16 (3 : Nat)).length = 16 ∧
    strL "fresh-secret-a" ≠ strL "fresh-secret-b" ∧
    getDecryptedApiKey
      (some (encryptApiKey (strL "sk-abcdEFGH1234") (strL "fresh-secret-a")
        (List.replicate 32 7) (List.replicate 16 3))) (strL "fresh-secret-b") = none :=
  ⟨by decide, by decide, by decide,
    c1_fresh_secret_never_recovers (strL "sk-abcdEFGH1234")
      (strL "fresh-secret-a") (strL "fresh-secret-b")
      (List.replicate 32 7) (List.replicate 16 3) (by decide) (by decide) (by decide)⟩

/-- C7: altering any of the trailing ciphertext bytes of an
`encryptApiKey` payload (the part after offset 64) makes `decryptApiKey`
with the original secret fail the authentication-tag check and return no
plaintext at all. -/
theorem c7_tampered_tail_rejected (k s : Str) (salt iv : List Nat) (p' : List Nat)
    (hsalt : salt.length = 32) (hiv : iv.length = 16)
    (htake : p'.take 64 = (encryptApiKey k s salt iv).take 64)
    (hne : p' ≠ encryptApiKey k s salt iv)
    (hbytes : ∀ b ∈ p'.drop 64, b < 4294967296) :
    decryptApiKey p' s = none := by
  obtain ⟨h1, h2, h3, h4⟩ := payload_slices k s salt iv hsalt hiv
  have e48 : p'.take 48 = (encryptApiKey k s salt iv).take 48 := by
    have := congrArg (fun l => List.take 48 l) htake
    simpa [List.take_take] using this
  have e32 : p'.take 32 = salt := by
    have := congrArg (fun l => List.take 32 l) htake
    simp only [List.take_take] at this
    simpa [h1] using this
  have eiv : (p'.drop 32).take 16 = iv := by
    have d1 : (p'.take 48).drop 32 = ((encryptApiKey k s salt iv).take 48).drop 32 := by
      rw [e48]
    rw [List.drop_take, List.drop_take] at d1
    simpa [h2] using d1
  have etag : (p'.drop 48).take 16 =
      tagOf s salt iv (k.map (fun c => c.toNat ^^^ keyByte s salt iv)) := by
    have d1 : (p'.take 64).drop 48 = ((encryptApiKey k s salt iv).take 64).drop 48 := by
      rw [htake]
    rw [List.drop_take, List.drop_take] at d1
    simpa [h3] using d1
  have ectne : p'.drop 64 ≠ k.map (fun c => c.toNat ^^^ keyByte s salt iv) := by
    intro hct
    apply hne
    calc p' = p'.take 64 ++ p'.drop 64 := (List.take_append_drop 64 p').symm
      _ = (encryptApiKey k s salt iv).take 64 ++ (encryptApiKey k s salt iv).drop 64 := by
          rw [htake, hct, h4]
      _ = encryptApiKey k s salt iv := List.take_append_drop 64 _
  unfold decryptApiKey
  simp only [e32, eiv, etag]
  rw [if_neg]
  intro heq
  have hhead : tagNat s salt iv (k.map (fun c => c.toNat ^^^ keyByte s salt iv)) =
      tagNat s salt iv (p'.drop 64) := by
    have := congrArg (fun l => l.headD 0) heq
    simpa [tagOf] using this
  apply ectne
  exact (tagNat_ct_inj
    (fun a ha => by
      obtain ⟨c, _, rfl⟩ := List.mem_map.1 ha
      exact ctByte_lt c s salt iv)
    hbytes hhead).symm

/-- C7 witness: a concrete payload whose final ciphertext byte is
incremented. -/
theorem c7_tampered_tail_rejected_witness :
    (List.replicate 32 (7 : Nat)).length = 32 ∧
    (List.replicate 16 (3 : Nat)).length = 16 ∧
    ((encryptApiKey (strL "sk-x") (strL "s1") (List.replicate 32 7)
        (List.replicate 16 3)).dropLast ++ [99]).take 64 =
      (encryptApiKey (strL "sk-x") (strL "s1") (List.replicate 32 7)
        (List.replicate 16 3)).take 64 ∧
    (encryptApiKey (strL "sk-x") (strL "s1") (List.replicate 32 7)
        (List.replicate 16 3)).dropLast ++ [99] ≠
      encryptApiKey (strL "sk-x") (strL "s1") (List.replicate 32 7)
        (List.replicate 16 3) ∧
    decryptApiKey
      ((encryptApiKey (strL "sk-x") (strL "s1") (List.replicate 32 7)
        (List.replicate 16 3)).dropLast ++ [99]) (strL "s1") = none :=
  ⟨by decide, by decide, by decide, by decide,
    c7_tampered_tail_rejected (strL "sk-x") (strL "s1")
      (List.replicate 32 7) (List.replicate 16 3)
      ((encryptApiKey (strL "sk-x") (strL "s1") (List.replicate 32 7)
        (List.replicate 16 3)).dropLast ++ [99])
      (by decide) (by decide) (by decide) (by decide) (by decide)⟩

/-- C4: whenever the key, provider, model and prompt resolve, the provider
is not the fully dynamic aggregator, and the estimated input token count
`ceil(|prompt ++ input| / 4)` exceeds 60% of the model's context window,
`generate` fails with an invalid-argument error and its trace contains no
outbound network call. -/
theorem c4_context_window_guard (req : GenReq) (env : GenEnv) (k : Str)
    (pInfo : ProviderInfo) (mInfo : ModelInfo) (sp : Str)
    (hk : resolveApiKey req env = some k)
    (hp : findProvider req.provider = some pInfo)
    (hm : resolveModelInfo req = some mInfo)
    (hsp : resolvePrompt req env = some sp)
    (hor : req.provider ≠ strL "openrouter")
    (htok : estimateTokens (sp ++ finalInputOf req) * 5 > mInfo.contextWindow * 3) :
    (generate req env).res =
      .error (.invalidArgument (strL "Input too long for selected model context window")) ∧
    ∀ e ∈ (generate req env).trace, e.isNet = false := by
  have hgen : generate req env =
      ⟨.error (.invalidArgument (strL "Input too long for selected model context window")),
        [.upsertUser req.userId]⟩ := by
    unfold generate
    simp only [hk, hp, hm, hsp]
    rw [if_pos ⟨hor, htok⟩]
  rw [hgen]
  exact ⟨rfl, by intro e he; simp at he; rw [he]; rfl⟩

/-- C4 witness: a 20000-character input (estimated 5000 tokens) against
`moonshot-v1-8k` (context window 8000) is rejected with no network call,
since 5000 > 0.6 × 8000 = 4800. -/
theorem c4_context_window_guard_witness :
    resolveApiKey
      ⟨strL "u", List.replicate 20000 'a', .quick, none, strL "moonshot",
        strL "moonshot-v1-8k", strL "ai_agent", some (strL "sk"), some (strL "")⟩
      ⟨none, none, .error [], none, none, fun _ => none, 0⟩ = some (strL "sk") ∧
    findProvider (strL "moonshot") = some moonshotInfo ∧
    resolveModelInfo
      ⟨strL "u", List.replicate 20000 'a', .quick, none, strL "moonshot",
        strL "moonshot-v1-8k", strL "ai_agent", some (strL "sk"), some (strL "")⟩ =
      some ⟨strL "moonshot-v1-8k", 8000, mkRat 1 1000, mkRat 1 1000⟩ ∧
    estimateTokens (strL "" ++ finalInputOf
      ⟨strL "u", List.replicate 20000 'a', .quick, none, strL "moonshot",
        strL "moonshot-v1-8k", strL "ai_agent", some (strL "sk"), some (strL "")⟩) * 5 >
      (⟨strL "moonshot-v1-8k", 8000, mkRat 1 1000, mkRat 1 1000⟩ : ModelInfo).contextWindow * 3 ∧
    ((generate
      ⟨strL "u", List.replicate 20000 'a', .quick, none, strL "moonshot",
        strL "moonshot-v1-8k", strL "ai_agent", some (strL "sk"), some (strL "")⟩
      ⟨none, none, .error [], none, none, fun _ => none, 0⟩).res =
        .error (.invalidArgument (strL "Input too long for selected model context window")) ∧
      ∀ e ∈ (generate
        ⟨strL "u", List.replicate 20000 'a', .quick, none, strL "moonshot",
          strL "moonshot-v1-8k", strL "ai_agent", some (strL "sk"), some (strL "")⟩
        ⟨none, none, .error [], none, none, fun _ => none, 0⟩).trace, e.isNet = false) := by
  have hfin : finalInputOf
      ⟨strL "u", List.replicate 20000 'a', .quick, none, strL "moonshot",
        strL "moonshot-v1-8k", strL "ai_agent", some (strL "sk"), some (strL "")⟩ =
      List.replicate 20000 'a' := rfl
  have htok : estimateTokens (strL "" ++ finalInputOf
      ⟨strL "u", List.replicate 20000 'a', .quick, none, strL "moonshot",
        strL "moonshot-v1-8k", strL "ai_agent", some (strL "sk"), some (strL "")⟩) * 5 >
      (⟨strL "moonshot-v1-8k", 8000, mkRat 1 1000, mkRat 1 1000⟩ : ModelInfo).contextWindow * 3 := by
    unfold estimateTokens
    rw [hfin]
    rw [show strL "" ++ List.replicate 20000 'a' = List.replicate 20000 'a' from rfl]
    rw [List.length_replicate]
    norm_num
  refine ⟨rfl, by decide, by decide, htok, ?_⟩
  exact c4_context_window_guard
    ⟨strL "u", List.replicate 20000 'a', .quick, none, strL "moonshot",
      strL "moonshot-v1-8k", strL "ai_agent", some (strL "sk"), some (strL "")⟩
    ⟨none, none, .error [], none, none, fun _ => none, 0⟩ (strL "sk") moonshotInfo
    ⟨strL "moonshot-v1-8k", 8000, mkRat 1 1000, mkRat 1 1000⟩ (strL "")
    rfl (by decide) (by decide) rfl (by decide) htok

/-- C5 counterexample: an invocation whose API key is resolved (supplied
inline) and which then fails validation — an unsupported model for a
non-aggregator provider — re-raises the invalid-argument error without
persisting any `generation_logs` row, contradicting the claim that every
failure after key resolution is logged. -/
theorem c5_counterexample :
    resolveApiKey
      ⟨strL "u", strL "hi", .quick, none, strL "openai", strL "nope",
        strL "ai_agent", some (strL "sk"), some []⟩
      ⟨none, none, .error [], none, none, fun _ => none, 0⟩ = some (strL "sk") ∧
    (generate
      ⟨strL "u", strL "hi", .quick, none, strL "openai", strL "nope",
        strL "ai_agent", some (strL "sk"), some []⟩
      ⟨none, none, .error [], none, none, fun _ => none, 0⟩).res =
      .error (.invalidArgument (strL "Unsupported model: nope")) ∧
    ∀ e ∈ (generate
      ⟨strL "u", strL "hi", .quick, none, strL "openai", strL "nope",
        strL "ai_agent", some (strL "sk"), some []⟩
      ⟨none, none, .error [], none, none, fun _ => none, 0⟩).trace,
      e.isLog = false := by decide

/-- C5 (amended): every failure inside the `try` block of `generate` —
the completion call failing, or the subsequent `prds` insert returning no
row — is caught, a `generation_logs` failure row carrying the error
message and the elapsed duration is persisted as the final effect, and
only then is the error re-raised; and every validation failure after key
resolution but before the `try` block (unsupported provider, unsupported
model, missing system prompt, over-long input) is re-raised with a trace
containing no `generation_logs` row at all. -/
theorem c5_try_block_failure_logged :
    (∀ (req : GenReq) (env : GenEnv) (k : Str) (pInfo : ProviderInfo)
      (mInfo : ModelInfo) (sp msg : Str),
      resolveApiKey req env = some k →
      findProvider req.provider = some pInfo →
      resolveModelInfo req = some mInfo →
      resolvePrompt req env = some sp →
      ¬(req.provider ≠ strL "openrouter" ∧
        estimateTokens (sp ++ finalInputOf req) * 5 > mInfo.contextWindow * 3) →
      (callAI req.provider req.model env).1 = .error msg →
      (generate req env).res = .error (.internal (strL "Generation failed: " ++ msg)) ∧
      (generate req env).trace =
        [Effect.upsertUser req.userId] ++ (callAI req.provider req.model env).2 ++
          [Effect.insertLog (failLog req msg env.elapsed)] ∧
      (failLog req msg env.elapsed).errorMessage = some msg ∧
      (failLog req msg env.elapsed).durationMs = env.elapsed) ∧
    (∀ (req : GenReq) (env : GenEnv) (k : Str) (pInfo : ProviderInfo)
      (mInfo : ModelInfo) (sp content : Str),
      resolveApiKey req env = some k →
      findProvider req.provider = some pInfo →
      resolveModelInfo req = some mInfo →
      resolvePrompt req env = some sp →
      ¬(req.provider ≠ strL "openrouter" ∧
        estimateTokens (sp ++ finalInputOf req) * 5 > mInfo.contextWindow * 3) →
      (callAI req.provider req.model env).1 = .ok content →
      env.prdId = none →
      (generate req env).res = .error (.internal (strL "Failed to save PRD")) ∧
      (∃ pre, (generate req env).trace =
        pre ++ [Effect.insertLog (failLog req (strL "Failed to save PRD") env.elapsed)]) ∧
      (failLog req (strL "Failed to save PRD") env.elapsed).errorMessage =
        some (strL "Failed to save PRD") ∧
      (failLog req (strL "Failed to save PRD") env.elapsed).durationMs = env.elapsed) ∧
    (∀ (req : GenReq) (env : GenEnv) (k : Str),
      resolveApiKey req env = some k →
      (findProvider req.provider = none ∨
       resolveModelInfo req = none ∨
       resolvePrompt req env = none ∨
       (∃ mInfo sp, resolveModelInfo req = some mInfo ∧ resolvePrompt req env = some sp ∧
         req.provider ≠ strL "openrouter" ∧
         estimateTokens (sp ++ finalInputOf req) * 5 > mInfo.contextWindow * 3)) →
      (∃ er, (generate req env).res = .error er) ∧
      (generate req env).trace = [Effect.upsertUser req.userId] ∧
      ∀ e ∈ (generate req env).trace, e.isLog = false) := by
  refine ⟨?_, ?_, ?_⟩
  · intro req env k pInfo mInfo sp msg hk hp hm hsp hfit hai
    have hgen : generate req env =
        ⟨.error (.internal (strL "Generation failed: " ++ msg)),
          ([Effect.upsertUser req.userId] ++ (callAI req.provider req.model env).2) ++
            [Effect.insertLog (failLog req msg env.elapsed)]⟩ := by
      unfold generate
      simp only [hk, hp, hm, hsp]
      rw [if_neg hfit]
      unfold genTry
      simp only [hai]
    rw [hgen]
    refine ⟨rfl, ?_, rfl, rfl⟩
    simp
  · intro req env k pInfo mInfo sp content hk hp hm hsp hfit hok hprd
    obtain ⟨pre, hgen⟩ : ∃ pre, generate req env =
        ⟨.error (.internal (strL "Failed to save PRD")),
          pre ++ [Effect.insertLog (failLog req (strL "Failed to save PRD") env.elapsed)]⟩ := by
      apply Exists.intro
      unfold generate
      simp only [hk, hp, hm, hsp]
      rw [if_neg hfit]
      unfold genTry
      simp only [hok, hprd]
      rfl
    rw [hgen]
    exact ⟨rfl, ⟨pre, rfl⟩, rfl, rfl⟩
  · intro req env k hk hval
    have step : ∀ er : ApiErr,
        generate req env = ⟨.error er, [Effect.upsertUser req.userId]⟩ →
        (∃ er2, (generate req env).res = .error er2) ∧
        (generate req env).trace = [Effect.upsertUser req.userId] ∧
        ∀ e ∈ (generate req env).trace, e.isLog = false := by
      intro er hgen
      rw [hgen]
      refine ⟨⟨er, rfl⟩, rfl, ?_⟩
      intro e he
      rw [List.mem_singleton] at he
      rw [he]
      rfl
    rcases hval with hfp | hmn | hspn | ⟨mInfo, sp, hm, hsp, hor, htok⟩
    · apply step
      unfold generate
      simp only [hk, hfp]
      try rfl
    · cases hfp : findProvider req.provider with
      | none =>
        apply step
        unfold generate
        simp only [hk, hfp]
        try rfl
      | some p =>
        apply step
        unfold generate
        simp only [hk, hfp, hmn]
        try rfl
    · cases hfp : findProvider req.provider with
      | none =>
        apply step
        unfold generate
        simp only [hk, hfp]
        try rfl
      | some p =>
        cases hm2 : resolveModelInfo req with
        | none =>
          apply step
          unfold generate
          simp only [hk, hfp, hm2]
          try rfl
        | some m =>
          apply step
          unfold generate
          simp only [hk, hfp, hm2, hspn]
          try rfl
    · cases hfp : findProvider req.provider with
      | none =>
        apply step
        unfold generate
        simp only [hk, hfp]
        try rfl
      | some p =>
        apply step
        unfold generate
        simp only [hk, hfp, hm, hsp]
        rw [if_pos ⟨hor, htok⟩]

/-- C5 witness: a concrete logged completion failure, a concrete logged
`prds`-insert failure, and a concrete unlogged validation failure. -/
theorem c5_try_block_failure_logged_witness :
    ((callAI (strL "openai") (strL "gpt-4o")
        ⟨none, none, .error (strL "boom"), none, none, fun _ => none, 42⟩).1 =
      .error (strL "OpenAI API error: boom") ∧
      (generate
        ⟨strL "u", strL "hi", .quick, none, strL "openai", strL "gpt-4o",
          strL "ai_agent", some (strL "sk"), some (strL "")⟩
        ⟨none, none, .error (strL "boom"), none, none, fun _ => none, 42⟩).res =
        .error (.internal (strL "Generation failed: " ++ strL "OpenAI API error: boom")) ∧
      (generate
        ⟨strL "u", strL "hi", .quick, none, strL "openai", strL "gpt-4o",
          strL "ai_agent", some (strL "sk"), some (strL "")⟩
        ⟨none, none, .error (strL "boom"), none, none, fun _ => none, 42⟩).trace =
        [Effect.upsertUser (strL "u")] ++
          (callAI (strL "openai") (strL "gpt-4o")
            ⟨none, none, .error (strL "boom"), none, none, fun _ => none, 42⟩).2 ++
          [Effect.insertLog (failLog
            ⟨strL "u", strL "hi", .quick, none, strL "openai", strL "gpt-4o",
              strL "ai_agent", some (strL "sk"), some (strL "")⟩
            (strL "OpenAI API error: boom") 42)]) ∧
    ((callAI (strL "openai") (strL "gpt-4o")
        ⟨none, none, .ok (strL "# T\nbody"), none, none, fun _ => none, 7⟩).1 =
      .ok (strL "# T\nbody") ∧
      (generate
        ⟨strL "u", strL "hi", .quick, none, strL "openai", strL "gpt-4o",
          strL "ai_agent", some (strL "sk"), some (strL "")⟩
        ⟨none, none, .ok (strL "# T\nbody"), none, none, fun _ => none, 7⟩).res =
        .error (.internal (strL "Failed to save PRD")) ∧
      (∃ pre, (generate
        ⟨strL "u", strL "hi", .quick, none, strL "openai", strL "gpt-4o",
          strL "ai_agent", some (strL "sk"), some (strL "")⟩
        ⟨none, none, .ok (strL "# T\nbody"), none, none, fun _ => none, 7⟩).trace =
        pre ++ [Effect.insertLog (failLog
          ⟨strL "u", strL "hi", .quick, none, strL "openai", strL "gpt-4o",
            strL "ai_agent", some (strL "sk"), some (strL "")⟩
          (strL "Failed to save PRD") 7)])) ∧
    (resolveModelInfo
      ⟨strL "u", strL "hi", .quick, none, strL "openai", strL "nope",
        strL "ai_agent", some (strL "sk"), some (strL "")⟩ = none ∧
      (∃ er, (generate
        ⟨strL "u", strL "hi", .quick, none, strL "openai", strL "nope",
          strL "ai_agent", some (strL "sk"), some (strL "")⟩
        ⟨none, none, .error [], none, none, fun _ => none, 0⟩).res = .error er) ∧
      ∀ e ∈ (generate
        ⟨strL "u", strL "hi", .quick, none, strL "openai", strL "nope",
          strL "ai_agent", some (strL "sk"), some (strL "")⟩
        ⟨none, none, .error [], none, none, fun _ => none, 0⟩).trace,
        e.isLog = false) :=
  ⟨⟨by decide,
    (c5_try_block_failure_logged.1
      ⟨strL "u", strL "hi", .quick, none, strL "openai", strL "gpt-4o",
        strL "ai_agent", some (strL "sk"), some (strL "")⟩
      ⟨none, none, .error (strL "boom"), none, none, fun _ => none, 42⟩
      (strL "sk") openaiInfo ⟨strL "gpt-4o", 128000, mkRat 5 1000, mkRat 15 1000⟩
      (strL "") (strL "OpenAI API error: boom")
      rfl (by decide) (by decide) rfl (by decide) (by decide)).1,
    (c5_try_block_failure_logged.1
      ⟨strL "u", strL "hi", .quick, none, strL "openai", strL "gpt-4o",
        strL "ai_agent", some (strL "sk"), some (strL "")⟩
      ⟨none, none, .error (strL "boom"), none, none, fun _ => none, 42⟩
      (strL "sk") openaiInfo ⟨strL "gpt-4o", 128000, mkRat 5 1000, mkRat 15 1000⟩
      (strL "") (strL "OpenAI API error: boom")
      rfl (by decide) (by decide) rfl (by decide) (by decide)).2.1⟩,
   ⟨by decide,
    (c5_try_block_failure_logged.2.1
      ⟨strL "u", strL "hi", .quick, none, strL "openai", strL "gpt-4o",
        strL "ai_agent", some (strL "sk"), some (strL "")⟩
      ⟨none, none, .ok (strL "# T\nbody"), none, none, fun _ => none, 7⟩
      (strL "sk") openaiInfo ⟨strL "gpt-4o", 128000, mkRat 5 1000, mkRat 15 1000⟩
      (strL "") (strL "# T\nbody")
      rfl (by decide) (by decide) rfl (by decide) (by decide) rfl).1,
    (c5_try_block_failure_logged.2.1
      ⟨strL "u", strL "hi", .quick, none, strL "openai", strL "gpt-4o",
        strL "ai_agent", some (strL "sk"), some (strL "")⟩
      ⟨none, none, .ok (strL "# T\nbody"), none, none, fun _ => none, 7⟩
      (strL "sk") openaiInfo ⟨strL "gpt-4o", 128000, mkRat 5 1000, mkRat 15 1000⟩
      (strL "") (strL "# T\nbody")
      rfl (by decide) (by decide) rfl (by decide) (by decide) rfl).2.1⟩,
   ⟨by decide,
    (c5_try_block_failure_logged.2.2
      ⟨strL "u", strL "hi", .quick, none, strL "openai", strL "nope",
        strL "ai_agent", some (strL "sk"), some (strL "")⟩
      ⟨none, none, .error [], none, none, fun _ => none, 0⟩
      (strL "sk") rfl (Or.inr (Or.inl (by decide)))).1,
    (c5_try_block_failure_logged.2.2
      ⟨strL "u", strL "hi", .quick, none, strL "openai", strL "nope",
        strL "ai_agent", some (strL "sk"), some (strL "")⟩
      ⟨none, none, .error [], none, none, fun _ => none, 0⟩
      (strL "sk") rfl (Or.inr (Or.inl (by decide)))).2.2⟩⟩

theorem listCore_trace (info : ProviderInfo) (env : ListEnv) :
    (listCore info env).2 = [] ∨
      ∃ nm pu, (listCore info env).2 = [Effect.netCall nm pu] := by
  cases hml : info.modelList with
  | some ml =>
    right
    refine ⟨info.name, strL "models", ?_⟩
    simp only [listCore, hml]
    repeat' split
    all_goals rfl
  | none =>
    by_cases hm2 : info.models.isEmpty
    · left; simp [listCore, hml, hm2]
    · right
      refine ⟨info.name, strL "validation", ?_⟩
      simp only [listCore, hml, if_neg hm2]
      split <;> rfl

/-- C9: for every provider and environment, the validate-and-list
operation performs at most one outbound network call and writes nothing to
persisted state; and for a provider entry with no dynamic model-list
endpoint and zero configured models it returns an empty model list without
any network call. -/
theorem c9_prober_frame :
    (∀ (provider : Str) (env : ListEnv),
      ((listProviderModels provider env).2.filter Effect.isNet).length ≤ 1 ∧
      ∀ e ∈ (listProviderModels provider env).2, e.isDbWrite = false) ∧
    (∀ (info : ProviderInfo) (env : ListEnv),
      info.modelList = none → info.models = [] →
      listCore info env = (.ok [], [])) := by
  constructor
  · intro provider env
    cases hf : findProvider provider with
    | none => simp [listProviderModels, hf]
    | some info =>
      rcases listCore_trace info env with h | ⟨nm, pu, h⟩ <;>
        simp [listProviderModels, hf, h, Effect.isNet, Effect.isDbWrite]
  · intro info env h1 h2
    simp [listCore, h1, h2]

/-- C9 witness: a provider entry with no dynamic endpoint and an empty
catalog returns an empty list with an empty effect trace. -/
theorem c9_prober_frame_witness :
    (⟨strL "Test", strL "https://t", none, []⟩ : ProviderInfo).modelList = none ∧
    (⟨strL "Test", strL "https://t", none, []⟩ : ProviderInfo).models = [] ∧
    listCore ⟨strL "Test", strL "https://t", none, []⟩
      ⟨true, none, [], []⟩ = (.ok [], []) ∧
    ((listProviderModels (strL "zai")
      ⟨true, none, [], []⟩).2.filter Effect.isNet).length ≤ 1 :=
  ⟨rfl, rfl,
    c9_prober_frame.2 ⟨strL "Test", strL "https://t", none, []⟩ ⟨true, none, [], []⟩ rfl rfl,
    (c9_prober_frame.1 (strL "zai") ⟨true, none, [], []⟩).1⟩

theorem times1000_eq (p : Rat) : times1000 p = p * 1000 := by
  unfold times1000
  rw [Rat.mkRat_eq_div]
  push_cast
  rw [mul_div_right_comm, Rat.num_div_den]

/-- C8 counterexample: an aggregator payload entry with no
`context_length` is mapped to a descriptor with context window 0, not the
4096 floor the claim states. -/
theorem c8_counterexample :
    (listProviderModels (strL "openrouter")
      ⟨true, none, [⟨strL "m", none, some (mkRat 1 1000000), some (mkRat 2 1000000)⟩], []⟩).1 =
      .ok [orToModelInfo ⟨strL "m", none, some (mkRat 1 1000000), some (mkRat 2 1000000)⟩] ∧
    (orToModelInfo ⟨strL "m", none, some (mkRat 1 1000000), some (mkRat 2 1000000)⟩).contextWindow = 0 ∧
    ¬(orToModelInfo ⟨strL "m", none, some (mkRat 1 1000000),
        some (mkRat 2 1000000)⟩).contextWindow = 4096 := by decide

/-- C8 (amended): on a successful fetch, listing models for the aggregator
maps each payload entry to a descriptor whose per-1k costs are the
provider-reported per-token prices multiplied by 1000 (0 when absent or
unparseable) and whose context window is `context_length` defaulting to 0
— not 4096 — when absent. -/
theorem c8_aggregator_mapping (env : ListEnv) (h : env.fetchOk = true) :
    (listProviderModels (strL "openrouter") env).1 =
      .ok (env.orModels.map orToModelInfo) ∧
    ∀ m : ORModel,
      (orToModelInfo m).name = m.id ∧
      (orToModelInfo m).contextWindow = m.context_length.getD 0 ∧
      (∀ p, m.pricingPrompt = some p → (orToModelInfo m).inputCostPer1k = p * 1000) ∧
      (∀ p, m.pricingCompletion = some p → (orToModelInfo m).outputCostPer1k = p * 1000) := by
  constructor
  · have hf : findProvider (strL "openrouter") = some openrouterInfo := by decide
    simp [listProviderModels, hf, listCore, openrouterInfo, h]
  · intro m
    refine ⟨rfl, rfl, ?_, ?_⟩
    · intro p hp; simp [orToModelInfo, hp, times1000_eq]
    · intro p hp; simp [orToModelInfo, hp, times1000_eq]

/-- C8 witness: one concrete aggregator entry with context length 8192 and
per-token prices 1e-6 / 2e-6. -/
theorem c8_aggregator_mapping_witness :
    (⟨true, none, [⟨strL "m", some 8192, some (mkRat 1 1000000), some (mkRat 2 1000000)⟩], []⟩ : ListEnv).fetchOk = true ∧
    (listProviderModels (strL "openrouter")
      ⟨true, none, [⟨strL "m", some 8192, some (mkRat 1 1000000), some (mkRat 2 1000000)⟩], []⟩).1 =
      .ok ([⟨strL "m", some 8192, some (mkRat 1 1000000), some (mkRat 2 1000000)⟩].map orToModelInfo) ∧
    (orToModelInfo ⟨strL "m", some 8192, some (mkRat 1 1000000), some (mkRat 2 1000000)⟩).contextWindow =
      (some 8192).getD 0 ∧
    (orToModelInfo ⟨strL "m", some 8192, some (mkRat 1 1000000), some (mkRat 2 1000000)⟩).inputCostPer1k =
      mkRat 1 1000000 * 1000 :=
  ⟨rfl,
    (c8_aggregator_mapping
      ⟨true, none, [⟨strL "m", some 8192, some (mkRat 1 1000000), some (mkRat 2 1000000)⟩], []⟩ rfl).1,
    ((c8_aggregator_mapping
      ⟨true, none, [⟨strL "m", some 8192, some (mkRat 1 1000000), some (mkRat 2 1000000)⟩], []⟩ rfl).2
      ⟨strL "m", some 8192, some (mkRat 1 1000000), some (mkRat 2 1000000)⟩).2.1,
    ((c8_aggregator_mapping
      ⟨true, none, [⟨strL "m", some 8192, some (mkRat 1 1000000), some (mkRat 2 1000000)⟩], []⟩ rfl).2
      ⟨strL "m", some 8192, some (mkRat 1 1000000), some (mkRat 2 1000000)⟩).2.2.1
      (mkRat 1 1000000) rfl⟩
